import Mathlib

/-!
Shallow embedding of libkirk/session.py, the Session orchestrator of kirk.

External collaborators (SUT, Framework, Scheduler, Exporter, event bus) are
modelled by their outcomes: every awaited call is represented by the value it
returns or the exception it raises, supplied through an environment record.
Python exceptions are modelled by the inductive type Exc, Python truthiness of
optional strings by optStrTruthy, and the event bus by the list of events the
session fires, in program order.  The asyncio locks serialize invocations and
are not observable in a single invocation, so they are not part of the state.
-/

namespace Kirk

/-- Python exceptions relevant to session.py: ValueError raised by the
constructor, KirkException (the domain error), asyncio.CancelledError, and a
catch-all for every other exception type.  asyncio.TimeoutError appears only
as the distinguished CmdOutcome.timeout of a command. -/
inductive Exc where
  | valueError (msg : String)
  | kirk (msg : String)
  | cancelled
  | other (msg : String)
deriving DecidableEq

/-- Results aggregate held by the Scheduler: opaque entries, read by the
session only for truthiness and exported verbatim. -/
abbrev Results := List String

/-- Suite object resolved by the Framework: opaque to the session. -/
abbrev Suite := String

/-- Events fired by session.py on the libkirk event bus, in program order. -/
inductive Event where
  | session_started (path : String)
  | sut_start (name : String)
  | sut_stop (name : String)
  | run_cmd_start (cmd : String)
  | run_cmd_stop (cmd : String) (out : String) (returncode : Int)
  | session_stopped
  | session_error (msg : String)
  | session_completed (results : Results)
deriving DecidableEq

/-- Static SUT descriptors used by Session.__init__ (sut.name, and
sut.parallel_execution read at session.py line 95). -/
structure SUTDesc where
  name : String
  parallel_execution : Bool
deriving DecidableEq

/-- Arguments with which Session.__init__ constructs the SuiteScheduler at
session.py lines 84-91.  The scheduler itself is external; we record its
construction arguments, which is all the claims are about. -/
structure SuiteScheduler where
  sut : SUTDesc
  framework : String
  suite_timeout : Nat
  exec_timeout : Nat
  max_workers : Nat
  skip_tests : Option String
  force_parallel : Bool
deriving DecidableEq

/-- Keyword arguments of Session.__init__ after applying the kwargs.get
defaults (session.py lines 62-65 and 79-82).  tmpdir, framework and sut are
Option values: none models a missing or falsy argument, which is what the
three truthiness checks at lines 70-77 test. -/
structure SessionConfig where
  tmpdir : Option String
  framework : Option String
  sut : Option SUTDesc
  exec_timeout : Nat
  suite_timeout : Nat
  workers : Nat
  force_parallel : Bool
  skip_tests : Option String
deriving DecidableEq

/-- Log line emitted at session.py lines 96-98 when the SUT does not support
parallel execution. -/
def forcingWorkersMsg : String :=
  "SUT doesn\x27t support parallel execution. Forcing workers=1."

/-- State of a successfully constructed Session.  workersAttr models the
attribute self._workers, which exists only when the downgrade branch at
session.py line 99 ran; logMessages records the info log of that branch. -/
structure SessionState where
  tmpdir : String
  framework : String
  sut : SUTDesc
  exec_timeout : Nat
  stopFlag : Bool
  scheduler : SuiteScheduler
  workersAttr : Option Nat
  logMessages : List String
deriving DecidableEq

/-- Session.__init__ (session.py lines 42-99).  The three truthiness checks
run first (lines 70-77); then the SuiteScheduler is constructed with
max_workers bound to the requested workers count (lines 84-91); only after
that does the parallel-execution check run (lines 95-99), which sets the
attribute self._workers to 1 and logs, without touching the already
constructed scheduler.  _setup_debug_log only configures logging and is not
modelled. -/
def sessionInit (cfg : SessionConfig) : Except Exc SessionState :=
  match cfg.tmpdir with
  | none => .error (.valueError "tmpdir is empty")
  | some tmp =>
    match cfg.framework with
    | none => .error (.valueError "framework is empty")
    | some fw =>
      match cfg.sut with
      | none => .error (.valueError "sut is empty")
      | some sutd =>
        .ok
          { tmpdir := tmp
            framework := fw
            sut := sutd
            exec_timeout := cfg.exec_timeout
            stopFlag := false
            scheduler :=
              { sut := sutd
                framework := fw
                suite_timeout := cfg.suite_timeout
                exec_timeout := cfg.exec_timeout
                max_workers := cfg.workers
                skip_tests := cfg.skip_tests
                force_parallel := cfg.force_parallel }
            workersAttr := if sutd.parallel_execution then none else some 1
            logMessages := if sutd.parallel_execution then [] else [forcingWorkersMsg] }

/-- Message of the KirkException raised at session.py line 181; repr of a
quote-free command string is the command between single quotes. -/
def cmdTimeoutMsg (command : String) : String :=
  "Command timeout: \x27" ++ command ++ "\x27"

/-- Outcome of the awaited asyncio.wait_for(sut.run_command(...)) call at
session.py lines 168-173: a stdout and returncode pair, an
asyncio.TimeoutError, or any other exception. -/
inductive CmdOutcome where
  | ok (out : String) (returncode : Int)
  | timeout
  | err (e : Exc)
deriving DecidableEq

/-- Session._exec_command (session.py lines 160-184) given the stopping flag
self._stop and the outcome of the SUT command.  A TimeoutError becomes a
KirkException carrying the command text; that raise happens inside the
TimeoutError handler, so the sibling KirkException handler does not see it.
A KirkException from the command is re-raised only when self._stop is false.
Exceptions of any other type match no handler and propagate. -/
def execCommand (stop : Bool) (command : String) (outcome : CmdOutcome) :
    List Event × Except Exc Unit :=
  match outcome with
  | .ok out rc =>
      ([Event.run_cmd_start command, Event.run_cmd_stop command out rc], .ok ())
  | .timeout =>
      ([Event.run_cmd_start command], .error (.kirk (cmdTimeoutMsg command)))
  | .err (.kirk m) =>
      if stop then ([Event.run_cmd_start command], .ok ())
      else ([Event.run_cmd_start command], .error (.kirk m))
  | .err (.valueError m) =>
      ([Event.run_cmd_start command], .error (.valueError m))
  | .err .cancelled =>
      ([Event.run_cmd_start command], .error .cancelled)
  | .err (.other m) =>
      ([Event.run_cmd_start command], .error (.other m))

/-- Message of the KirkException raised at session.py line 148 for an empty
suite list; the f-string renders the list of names. -/
def cantFindSuitesMsg (names : List String) : String :=
  "Can\x27t find suites: " ++ toString names

/-- Message of the KirkException raised at session.py line 156 for a falsy
resolved suite. -/
def noSuiteObjectsMsg : String := "Can\x27t find suite objects"

/-- Loop at session.py lines 151-158 over the results of asyncio.gather with
return_exceptions=True: the first element in list order that is an exception
is re-raised as is; the first falsy element raises the generic KirkException;
otherwise the list of resolved suites is returned. -/
def checkSuites : List (Except Exc (Option Suite)) → Except Exc (List Suite)
  | [] => .ok []
  | .error e :: _ => .error e
  | .ok none :: _ => .error (.kirk noSuiteObjectsMsg)
  | .ok (some s) :: rest =>
    match checkSuites rest with
    | .error e => .error e
    | .ok l => .ok (s :: l)

/-- Session._read_suites (session.py lines 139-158).  resolve models
framework.find_suite for the fixed SUT: it returns a suite object, a falsy
value (none), or raises.  All names are resolved (gather with
return_exceptions=True), then the results are checked in order. -/
def readSuites (resolve : String → Except Exc (Option Suite))
    (names : List String) : Except Exc (List Suite) :=
  if names.isEmpty then .error (.kirk (cantFindSuitesMsg names))
  else checkSuites (names.map resolve)

/-- Session._stop_sut (session.py lines 129-137): no-op when the SUT is not
running, otherwise fires sut_stop and awaits sut.stop with the given
outcome. -/
def stopSUT (sutName : String) (running : Bool) (outcome : Except Exc Unit) :
    List Event × Except Exc Unit :=
  if running then ([Event.sut_stop sutName], outcome) else ([], .ok ())

/-- The two collaborator calls Session._inner_stop can make. -/
inductive StopStep where
  | schedulerStop
  | sutStop
deriving DecidableEq

/-- Session._inner_stop (session.py lines 186-193): when a scheduler is
present its stop is awaited first; an exception from it propagates
immediately, before _stop_sut is reached.  The middle component records
which steps were attempted. -/
def innerStop (schedulerPresent : Bool) (schedStopRes : Except Exc Unit)
    (sutName : String) (running : Bool) (sutStopOutcome : Except Exc Unit) :
    List Event × List StopStep × Except Exc Unit :=
  if schedulerPresent then
    match schedStopRes with
    | .error e => ([], [StopStep.schedulerStop], .error e)
    | .ok _ =>
      ((stopSUT sutName running sutStopOutcome).1,
       [StopStep.schedulerStop, StopStep.sutStop],
       (stopSUT sutName running sutStopOutcome).2)
  else
    ((stopSUT sutName running sutStopOutcome).1,
     [StopStep.sutStop],
     (stopSUT sutName running sutStopOutcome).2)

/-- Session.stop (session.py lines 195-210): sets self._stop, runs
_inner_stop, performs the lock rendezvous (not observable here), and in the
finally block fires session_stopped and clears self._stop; an exception from
_inner_stop still propagates afterwards.  Components: events fired, final
value of self._stop, and the overall result. -/
def sessionStop (schedulerPresent : Bool) (schedStopRes : Except Exc Unit)
    (sutName : String) (running : Bool) (sutStopOutcome : Except Exc Unit) :
    List Event × Bool × Except Exc Unit :=
  ((innerStop schedulerPresent schedStopRes sutName running sutStopOutcome).1
      ++ [Event.session_stopped],
   false,
   (innerStop schedulerPresent schedStopRes sutName running sutStopOutcome).2.2)

/-- Outcomes of the external calls a single Session.run invocation can make,
together with the stopping flag as the except clauses observe it.  startSUT is
the result of sut.ensure_communicate inside _start_sut; cmd the outcome of the
awaited command; resolve the framework suite resolution; schedule the result
of scheduler.schedule; results the aggregate scheduler.results read in the
finally block; exportMain and exportReport the results of the two
exporter.save_file calls; the last three fields feed the final _inner_stop. -/
structure RunEnv where
  startSUT : Except Exc Unit
  cmd : CmdOutcome
  resolve : String → Except Exc (Option Suite)
  schedule : Except Exc Unit
  results : Results
  exportMain : Except Exc Unit
  exportReport : Except Exc Unit
  sutRunning : Bool
  schedStop : Except Exc Unit
  sutStopRes : Except Exc Unit

/-- The command phase of run (session.py lines 232-233): a falsy command
(None or empty string) is skipped, otherwise _exec_command runs. -/
def cmdPhase (stop : Bool) (command : Option String) (oc : CmdOutcome) :
    List Event × Except Exc Unit :=
  match command with
  | none => ([], .ok ())
  | some c => if c.isEmpty then ([], .ok ()) else execCommand stop c oc

/-- Body of the try block of Session.run (session.py lines 229-237):
_start_sut, then the optional command, then suite resolution and scheduling
when the suite list is truthy.  Events are those fired so far; the result is
the exception escaping the try body, if any. -/
def runBody (stop : Bool) (sutName : String) (command : Option String)
    (suites : List String) (env : RunEnv) : List Event × Except Exc Unit :=
  match env.startSUT with
  | .error e => ([Event.sut_start sutName], .error e)
  | .ok _ =>
    match (cmdPhase stop command env.cmd).2 with
    | .error e =>
      (Event.sut_start sutName :: (cmdPhase stop command env.cmd).1, .error e)
    | .ok _ =>
      if suites.isEmpty then
        (Event.sut_start sutName :: (cmdPhase stop command env.cmd).1, .ok ())
      else
        match readSuites env.resolve suites with
        | .error e =>
          (Event.sut_start sutName :: (cmdPhase stop command env.cmd).1, .error e)
        | .ok _ =>
          (Event.sut_start sutName :: (cmdPhase stop command env.cmd).1, env.schedule)

/-- Except clauses of Session.run (session.py lines 238-244): a
CancelledError fires session_stopped and is swallowed; a KirkException is
swallowed when self._stop is set and otherwise fires session_error and is
re-raised; any other exception matches no clause and stays pending. -/
def runExceptPhase (stop : Bool) (body : List Event × Except Exc Unit) :
    List Event × Except Exc Unit :=
  match body.2 with
  | .ok _ => (body.1, .ok ())
  | .error .cancelled => (body.1 ++ [Event.session_stopped], .ok ())
  | .error (.kirk m) =>
      if stop then (body.1, .ok ())
      else (body.1 ++ [Event.session_error m], .error (.kirk m))
  | .error (.valueError m) => (body.1, .error (.valueError m))
  | .error (.other m) => (body.1, .error (.other m))

/-- Extra events appended by the except clauses, as a function of the body
result; used to factor runExceptPhase in proofs. -/
def exceptTail (stop : Bool) (r : Except Exc Unit) : List Event :=
  match r with
  | .ok _ => []
  | .error .cancelled => [Event.session_stopped]
  | .error (.kirk m) => if stop then [] else [Event.session_error m]
  | .error (.valueError _) => []
  | .error (.other _) => []

/-- Combined outcome of awaiting asyncio.gather over the export tasks
(session.py line 266): the second task exists only when report_path is
truthy; the surfaced exception is modelled as the first failing task in list
order. -/
def gatherRes (reportGiven : Bool) (e1 e2 : Except Exc Unit) :
    Except Exc Unit :=
  match e1 with
  | .error a => .error a
  | .ok _ => if reportGiven then e2 else .ok ()

/-- Python truthiness of an optional string: None and the empty string are
falsy. -/
def optStrTruthy : Option String → Bool
  | none => false
  | some s => !s.isEmpty

/-- os.path.join of a directory and a file name. -/
def joinPath (dir file : String) : String := dir ++ "/" ++ file

/-- The exporter.save_file calls created at session.py lines 250-264: always
the results.json file under the working directory, plus the report path when
it is truthy, both with the same results aggregate. -/
def exportCalls (tmpdir : String) (reportPath : Option String)
    (results : Results) : List (String × Results) :=
  (joinPath tmpdir "results.json", results) ::
    (match reportPath with
     | some p => if p.isEmpty then [] else [(p, results)]
     | none => [])

/-- Export block of the finally clause of Session.run (session.py lines
246-274): nothing happens when scheduler.results is falsy; otherwise the
save_file tasks are gathered and on success session_completed fires; a
KirkException from the block fires session_error and is re-raised; an
exception of any other type propagates without an event.  Components: events
fired, save_file calls made, result of the block. -/
def exportPhase (tmpdir : String) (reportPath : Option String)
    (results : Results) (exportMain exportReport : Except Exc Unit) :
    List Event × List (String × Results) × Except Exc Unit :=
  if results.isEmpty then ([], [], .ok ())
  else
    match gatherRes (optStrTruthy reportPath) exportMain exportReport with
    | .ok _ =>
      ([Event.session_completed results],
       exportCalls tmpdir reportPath results, .ok ())
    | .error (.kirk m) =>
      ([Event.session_error m],
       exportCalls tmpdir reportPath results, .error (.kirk m))
    | .error (.valueError m) =>
      ([], exportCalls tmpdir reportPath results, .error (.valueError m))
    | .error .cancelled =>
      ([], exportCalls tmpdir reportPath results, .error .cancelled)
    | .error (.other m) =>
      ([], exportCalls tmpdir reportPath results, .error (.other m))

/-- Python semantics of a finally block: an exception raised inside the
finally block replaces the pending one; when the block completes normally the
pending exception, if any, propagates. -/
def finallyCombine (pending fin : Except Exc Unit) : Except Exc Unit :=
  match fin with
  | .error e => .error e
  | .ok _ => pending

/-- Observable output of one Session.run invocation: events fired in order,
save_file calls made, and the overall result returned to the caller. -/
structure RunOutput where
  events : List Event
  exports : List (String × Results)
  result : Except Exc Unit

/-- Session.run (session.py lines 212-276).  session_started fires first;
then the try body with its except clauses; then the finally block runs the
export phase followed by its own finally that always calls _inner_stop (the
scheduler is always present on a constructed session, hence the true
argument).  The overall result nests the Python replacement semantics of the
two finally blocks. -/
def sessionRun (stop : Bool) (tmpdir sutName : String)
    (command : Option String) (suites : List String)
    (reportPath : Option String) (env : RunEnv) : RunOutput :=
  ⟨Event.session_started tmpdir ::
      (runExceptPhase stop (runBody stop sutName command suites env)).1
      ++ (exportPhase tmpdir reportPath env.results
            env.exportMain env.exportReport).1
      ++ (innerStop true env.schedStop sutName env.sutRunning env.sutStopRes).1,
   (exportPhase tmpdir reportPath env.results
      env.exportMain env.exportReport).2.1,
   finallyCombine
     (runExceptPhase stop (runBody stop sutName command suites env)).2
     (finallyCombine
       (exportPhase tmpdir reportPath env.results
          env.exportMain env.exportReport).2.2
       (innerStop true env.schedStop sutName env.sutRunning env.sutStopRes).2.2)⟩

/-- The three lifecycle-completion events of the spec. -/
def isCompletionEvent : Event → Bool
  | .session_stopped => true
  | .session_error _ => true
  | .session_completed _ => true
  | _ => false

/-- Number of lifecycle-completion events in a list of fired events. -/
def completionCount : List Event → Nat
  | [] => 0
  | ev :: rest => (if isCompletionEvent ev then 1 else 0) + completionCount rest

/-- Configuration with a SUT that rejects parallel execution and a requested
worker count of 4; used to exercise the downgrade branch of the
constructor. -/
def cfgNoParallel : SessionConfig :=
  ⟨some "/tmp/kirk", some "ltp", some ⟨"host", false⟩, 3600, 3600, 4, false, none⟩

/-- Environment of a fully successful run with an empty results aggregate. -/
def envOkEmpty : RunEnv :=
  ⟨.ok (), CmdOutcome.ok "" 0, fun _ => .ok (some "s"), .ok (), [],
   .ok (), .ok (), true, .ok (), .ok ()⟩

/-- Environment of a run cancelled at SUT startup whose scheduler still holds
a non-empty results aggregate that exports successfully. -/
def envCancelledResults : RunEnv :=
  ⟨.error .cancelled, CmdOutcome.ok "" 0, fun _ => .ok (some "s"), .ok (),
   ["r"], .ok (), .ok (), false, .ok (), .ok ()⟩

/-- Environment of a successful run with a non-empty results aggregate and
successful exports. -/
def envResultsOk : RunEnv :=
  ⟨.ok (), CmdOutcome.ok "" 0, fun _ => .ok (some "s"), .ok (), ["res1"],
   .ok (), .ok (), true, .ok (), .ok ()⟩

/-- Environment of a run cancelled at SUT startup with an empty results
aggregate and clean teardown. -/
def envCancelledEmpty : RunEnv :=
  ⟨.error .cancelled, CmdOutcome.ok "" 0, fun _ => .ok (some "s"), .ok (), [],
   .ok (), .ok (), false, .ok (), .ok ()⟩

/-- Sample resolver that succeeds only for the suite named good and fails
with its own framework error otherwise. -/
def sampleResolve : String → Except Exc (Option Suite) :=
  fun n => if n = "good" then .ok (some "g") else .error (.kirk "resolve failed")

/-- Sample resolver that always raises a framework-level error whose message
mentions neither the suite name nor the batch. -/
def failingResolve : String → Except Exc (Option Suite) :=
  fun _ => .error (.kirk "connection lost")

/-- Unfolding equation of completionCount on a cons cell. -/
theorem completionCount_cons (ev : Event) (t : List Event) :
    completionCount (ev :: t) =
      (if isCompletionEvent ev then 1 else 0) + completionCount t := rfl

/-- completionCount distributes over list append. -/
theorem completionCount_append (a b : List Event) :
    completionCount (a ++ b) = completionCount a + completionCount b := by
  induction a with
  | nil => simp [completionCount]
  | cons ev t ih =>
    rw [List.cons_append, completionCount_cons, completionCount_cons, ih,
      Nat.add_assoc]

/-- A list of non-completion events has completion count zero. -/
theorem completionCount_zero {l : List Event}
    (h : ∀ x ∈ l, isCompletionEvent x = false) : completionCount l = 0 := by
  induction l with
  | nil => rfl
  | cons ev t ih =>
    simp [completionCount_cons, h ev (List.mem_cons_self ev t),
      ih (fun x hx => h x (List.mem_cons_of_mem _ hx))]

/-- A completion event is not a member of a list of non-completion events. -/
theorem not_mem_of_no_completion {l : List Event}
    (h : ∀ x ∈ l, isCompletionEvent x = false) (e : Event)
    (he : isCompletionEvent e = true) : e ∉ l := by
  intro hmem
  rw [h e hmem] at he
  exact Bool.false_ne_true he

/-- _exec_command only fires command events, never completion events. -/
theorem execCommand_no_completion (stop : Bool) (c : String)
    (oc : CmdOutcome) :
    ∀ x ∈ (execCommand stop c oc).1, isCompletionEvent x = false := by
  intro x hx
  cases oc with
  | ok out rc =>
    simp [execCommand] at hx
    rcases hx with rfl | rfl <;> rfl
  | timeout =>
    simp [execCommand] at hx
    subst hx; rfl
  | err e =>
    cases e <;> cases stop <;> simp [execCommand] at hx <;> (subst hx; rfl)

/-- The command phase fires no completion events. -/
theorem cmdPhase_no_completion (stop : Bool) (command : Option String)
    (oc : CmdOutcome) :
    ∀ x ∈ (cmdPhase stop command oc).1, isCompletionEvent x = false := by
  intro x hx
  cases command with
  | none => simp [cmdPhase] at hx
  | some c =>
    by_cases hc : c.isEmpty = true
    · simp [cmdPhase, hc] at hx
    · simp [cmdPhase, hc] at hx
      exact execCommand_no_completion stop c oc x hx

/-- Events of the run try body: either only the sut_start event, or the
sut_start event followed by the command-phase events. -/
theorem runBody_events (stop : Bool) (sutName : String)
    (command : Option String) (suites : List String) (env : RunEnv) :
    (runBody stop sutName command suites env).1 = [Event.sut_start sutName]
  ∨ (runBody stop sutName command suites env).1 =
      Event.sut_start sutName :: (cmdPhase stop command env.cmd).1 := by
  rcases hs : env.startSUT with e | u
  · left; simp [runBody, hs]
  · rcases hc : (cmdPhase stop command env.cmd).2 with e2 | u2
    · right; simp [runBody, hs, hc]
    · rcases suites with _ | ⟨s0, srest⟩
      · right; simp [runBody, hs, hc]
      · rcases hr : readSuites env.resolve (s0 :: srest) with e3 | l
        · right; simp [runBody, hs, hc, hr]
        · right; simp [runBody, hs, hc, hr]

/-- The run try body fires no completion events. -/
theorem runBody_no_completion (stop : Bool) (sutName : String)
    (command : Option String) (suites : List String) (env : RunEnv) :
    ∀ x ∈ (runBody stop sutName command suites env).1,
      isCompletionEvent x = false := by
  intro x hx
  rcases runBody_events stop sutName command suites env with h | h <;>
    rw [h] at hx
  · simp at hx; subst hx; rfl
  · simp at hx
    rcases hx with rfl | hx
    · rfl
    · exact cmdPhase_no_completion stop command env.cmd x hx

/-- _inner_stop fires no completion events. -/
theorem innerStop_no_completion (sp : Bool) (sr : Except Exc Unit)
    (n : String) (running : Bool) (so : Except Exc Unit) :
    ∀ x ∈ (innerStop sp sr n running so).1, isCompletionEvent x = false := by
  intro x hx
  cases sp <;> cases running <;> rcases sr with e | u <;>
    simp [innerStop, stopSUT] at hx <;> (subst hx; rfl)

/-- The except clauses of run append exactly the exceptTail events. -/
theorem runExceptPhase_events (stop : Bool)
    (body : List Event × Except Exc Unit) :
    (runExceptPhase stop body).1 = body.1 ++ exceptTail stop body.2 := by
  rcases body with ⟨evs, r⟩
  rcases r with e | u
  · cases e with
    | valueError m => simp [runExceptPhase, exceptTail]
    | kirk m => cases stop <;> simp [runExceptPhase, exceptTail]
    | cancelled => simp [runExceptPhase, exceptTail]
    | other m => simp [runExceptPhase, exceptTail]
  · simp [runExceptPhase, exceptTail]

/-- The except clauses append at most one completion event. -/
theorem exceptTail_count (stop : Bool) (r : Except Exc Unit) :
    completionCount (exceptTail stop r) ≤ 1 := by
  rcases r with e | u
  · cases e with
    | valueError m => simp [exceptTail, completionCount]
    | kirk m =>
      cases stop <;>
        simp [exceptTail, completionCount, isCompletionEvent]
    | cancelled => simp [exceptTail, completionCount, isCompletionEvent]
    | other m => simp [exceptTail, completionCount]
  · simp [exceptTail, completionCount]

/-- session_stopped is appended by the except clauses exactly on
cancellation. -/
theorem mem_exceptTail_stopped (stop : Bool) (r : Except Exc Unit) :
    Event.session_stopped ∈ exceptTail stop r ↔ r = .error .cancelled := by
  rcases r with e | u
  · cases e with
    | valueError m => simp [exceptTail]
    | kirk m => cases stop <;> simp [exceptTail]
    | cancelled => simp [exceptTail]
    | other m => simp [exceptTail]
  · simp [exceptTail]

/-- session_error is appended by the except clauses exactly for a
KirkException while the stopping flag is clear. -/
theorem mem_exceptTail_error (stop : Bool) (r : Except Exc Unit) :
    (∃ m, Event.session_error m ∈ exceptTail stop r) ↔
      (∃ m, r = .error (.kirk m)) ∧ stop = false := by
  rcases r with e | u
  · cases e with
    | valueError m => simp [exceptTail]
    | kirk m => cases stop <;> simp [exceptTail]
    | cancelled => simp [exceptTail]
    | other m => simp [exceptTail]
  · simp [exceptTail]

/-- session_completed is never appended by the except clauses. -/
theorem mem_exceptTail_completed (stop : Bool) (r : Except Exc Unit)
    (res : Results) : Event.session_completed res ∉ exceptTail stop r := by
  rcases r with e | u
  · cases e with
    | valueError m => simp [exceptTail]
    | kirk m => cases stop <;> simp [exceptTail]
    | cancelled => simp [exceptTail]
    | other m => simp [exceptTail]
  · simp [exceptTail]

/-- The export phase fires at most one completion event. -/
theorem exportPhase_count (tmpdir : String) (rp : Option String)
    (results : Results) (e1 e2 : Except Exc Unit) :
    completionCount (exportPhase tmpdir rp results e1 e2).1 ≤ 1 := by
  rcases results with _ | ⟨a, t⟩
  · simp [exportPhase, completionCount]
  · rcases hg : gatherRes (optStrTruthy rp) e1 e2 with e | u
    · cases e <;> simp [exportPhase, hg, completionCount, isCompletionEvent]
    · simp [exportPhase, hg, completionCount, isCompletionEvent]

/-- The export phase never fires session_stopped. -/
theorem exportPhase_no_stopped (tmpdir : String) (rp : Option String)
    (results : Results) (e1 e2 : Except Exc Unit) :
    Event.session_stopped ∉ (exportPhase tmpdir rp results e1 e2).1 := by
  rcases results with _ | ⟨a, t⟩
  · simp [exportPhase]
  · rcases hg : gatherRes (optStrTruthy rp) e1 e2 with e | u
    · cases e <;> simp [exportPhase, hg]
    · simp [exportPhase, hg]

/-- The export phase fires session_completed exactly when the aggregate is
non-empty and the gathered exports succeed. -/
theorem exportPhase_mem_completed (tmpdir : String) (rp : Option String)
    (results : Results) (e1 e2 : Except Exc Unit) :
    (∃ r, Event.session_completed r ∈ (exportPhase tmpdir rp results e1 e2).1)
      ↔ results ≠ [] ∧ gatherRes (optStrTruthy rp) e1 e2 = .ok () := by
  rcases results with _ | ⟨a, t⟩
  · simp [exportPhase]
  · rcases hg : gatherRes (optStrTruthy rp) e1 e2 with e | u
    · cases e <;> simp [exportPhase, hg]
    · cases u
      simp [exportPhase, hg]

/-- The export phase fires session_error exactly when the aggregate is
non-empty and the gathered exports fail with a KirkException. -/
theorem exportPhase_mem_error (tmpdir : String) (rp : Option String)
    (results : Results) (e1 e2 : Except Exc Unit) :
    (∃ m, Event.session_error m ∈ (exportPhase tmpdir rp results e1 e2).1)
      ↔ results ≠ [] ∧
          ∃ m, gatherRes (optStrTruthy rp) e1 e2 = .error (.kirk m) := by
  rcases results with _ | ⟨a, t⟩
  · simp [exportPhase]
  · rcases hg : gatherRes (optStrTruthy rp) e1 e2 with e | u
    · cases e <;> simp [exportPhase, hg]
    · simp [exportPhase, hg]

/-- With the aggregate non-empty, the save calls of the export phase are the
exportCalls list, in every gather outcome. -/
theorem exportPhase_calls (tmpdir : String) (rp : Option String)
    (results : Results) (e1 e2 : Except Exc Unit)
    (h : results.isEmpty = false) :
    (exportPhase tmpdir rp results e1 e2).2.1 =
      exportCalls tmpdir rp results := by
  rcases hg : gatherRes (optStrTruthy rp) e1 e2 with e | u
  · cases e <;> simp [exportPhase, h, hg]
  · simp [exportPhase, h, hg]

/-- checkSuites skips a prefix of successfully resolved, truthy suites when
surfacing an error from the remainder of the list. -/
theorem checkSuites_append_error (l1 l2 : List (Except Exc (Option Suite)))
    (h1 : ∀ r ∈ l1, ∃ t, r = .ok (some t)) (e : Exc)
    (h2 : checkSuites l2 = .error e) :
    checkSuites (l1 ++ l2) = .error e := by
  induction l1 with
  | nil => simpa using h2
  | cons r t ih =>
    obtain ⟨u, hu⟩ := h1 r (List.mem_cons_self r t)
    subst hu
    have hrec := ih (fun x hx => h1 x (List.mem_cons_of_mem _ hx))
    simp [checkSuites, hrec]

/-- checkSuites succeeds on a list of successfully resolved, truthy
suites. -/
theorem checkSuites_all_ok (l : List (Except Exc (Option Suite)))
    (h : ∀ r ∈ l, ∃ t, r = .ok (some t)) :
    ∃ out, checkSuites l = .ok out := by
  induction l with
  | nil => exact ⟨[], rfl⟩
  | cons r t ih =>
    obtain ⟨u, hu⟩ := h r (List.mem_cons_self r t)
    subst hu
    obtain ⟨out, hout⟩ := ih (fun x hx => h x (List.mem_cons_of_mem _ hx))
    exact ⟨u :: out, by simp [checkSuites, hout]⟩

/-- Claim C1: the claim states that when the SUT rejects parallel execution
the Scheduler is constructed with exactly one worker.  The code instead
constructs the SuiteScheduler with the requested worker count before the
downgrade check runs; the check then only sets the otherwise unused attribute
self._workers to 1 while logging that workers were forced to 1.  This theorem
evaluates the constructor on such a configuration with workers=4: the
scheduler keeps max_workers=4 even though the downgrade branch ran and
logged. -/
theorem C1_scheduler_keeps_requested_workers :
    ∃ st, sessionInit cfgNoParallel = Except.ok st
      ∧ st.scheduler.max_workers = 4
      ∧ st.workersAttr = some 1
      ∧ st.logMessages = [forcingWorkersMsg] :=
  ⟨_, rfl, rfl, rfl, rfl⟩

/-- Claim C3: a command hitting the exec-timeout deadline always raises a
KirkException whose message carries the original command text, for both
values of the stopping flag; any other KirkException raised during the
command is suppressed if and only if the stopping flag is set, and otherwise
propagates unchanged. -/
theorem C3_timeout_reported_kirk_suppressed_iff_stop (stop : Bool)
    (command m : String) :
    ((execCommand stop command CmdOutcome.timeout).2 =
        Except.error (Exc.kirk (cmdTimeoutMsg command))
      ∧ ∃ pre post, cmdTimeoutMsg command = pre ++ command ++ post)
  ∧ ((execCommand stop command (CmdOutcome.err (Exc.kirk m))).2 =
        if stop then Except.ok () else Except.error (Exc.kirk m)) := by
  refine ⟨⟨rfl, ⟨"Command timeout: \x27", "\x27", rfl⟩⟩, ?_⟩
  cases stop <;> rfl

/-- Claim C5 counterexample: with a single suite name whose resolution fails,
_read_suites surfaces the resolution error itself, unchanged; the surfaced
error is neither the batch-identifying error of the empty-list branch nor the
generic suite-objects error, so the claim that the first error is surfaced as
a suite-not-found error identifying the batch is false on the code. -/
theorem C5_counterexample :
    readSuites failingResolve ["net"] = .error (.kirk "connection lost")
  ∧ Exc.kirk "connection lost" ≠ Exc.kirk (cantFindSuitesMsg ["net"])
  ∧ Exc.kirk "connection lost" ≠ Exc.kirk noSuiteObjectsMsg := by
  refine ⟨rfl, by decide, by decide⟩

/-- Claim C5 (amended): with an empty name list _read_suites fails with the
no-suites error naming the batch; otherwise, after a prefix of successful
truthy resolutions, the first problem in list order is surfaced regardless of
what follows it: a failed resolution re-raises that resolution error
unchanged, and a falsy resolution raises the generic suite-objects error; and
when every resolution succeeds with a truthy suite, the call succeeds. -/
theorem C5_first_error_surfaced
    (resolve : String → Except Exc (Option Suite)) :
    (∀ names : List String, names = [] →
        readSuites resolve names = .error (.kirk (cantFindSuitesMsg names)))
  ∧ (∀ pre s rest, (∀ x ∈ pre, ∃ t, resolve x = .ok (some t)) →
        (∀ e, resolve s = .error e →
            readSuites resolve (pre ++ s :: rest) = .error e)
      ∧ (resolve s = .ok none →
            readSuites resolve (pre ++ s :: rest) =
              .error (.kirk noSuiteObjectsMsg)))
  ∧ (∀ names : List String, names ≠ [] →
        (∀ x ∈ names, ∃ t, resolve x = .ok (some t)) →
        ∃ l, readSuites resolve names = .ok l) := by
  refine ⟨?_, ?_, ?_⟩
  · intro names h
    subst h
    rfl
  · intro pre s rest hpre
    have hne : (pre ++ s :: rest).isEmpty = false := by cases pre <;> rfl
    have hpre' : ∀ r ∈ pre.map resolve, ∃ t, r = .ok (some t) := by
      intro r hr
      obtain ⟨x, hx, rfl⟩ := List.mem_map.mp hr
      exact hpre x hx
    constructor
    · intro e he
      have hck : checkSuites (pre.map resolve ++ resolve s :: rest.map resolve) =
          .error e :=
        checkSuites_append_error _ _ hpre' e (by simp [checkSuites, he])
      simp [readSuites, hne, hck]
    · intro he
      have hck : checkSuites (pre.map resolve ++ resolve s :: rest.map resolve) =
          .error (.kirk noSuiteObjectsMsg) :=
        checkSuites_append_error _ _ hpre' _ (by simp [checkSuites, he])
      simp [readSuites, hne, hck]
  · intro names hne hall
    have hne' : names.isEmpty = false := by
      cases names with
      | nil => exact absurd rfl hne
      | cons a t => rfl
    have hm : ∀ r ∈ names.map resolve, ∃ t, r = .ok (some t) := by
      intro r hr
      obtain ⟨x, hx, rfl⟩ := List.mem_map.mp hr
      exact hall x hx
    obtain ⟨out, hout⟩ := checkSuites_all_ok _ hm
    exact ⟨out, by simp [readSuites, hne', hout]⟩

/-- Witness for C5: after one successful resolution, a failing second
resolution surfaces its own error. -/
theorem C5_first_error_surfaced_witness :
    readSuites sampleResolve (["good"] ++ "oops" :: []) =
      .error (.kirk "resolve failed") :=
  ((C5_first_error_surfaced sampleResolve).2.1 ["good"] "oops" []
    (fun x hx => by
      have hx' : x = "good" := by simpa using hx
      subst hx'
      exact ⟨"g", rfl⟩)).1
    (.kirk "resolve failed") rfl

/-- Claim C6 counterexample: when the scheduler stop step fails,
_inner_stop raises immediately and the SUT stop step is never attempted,
contradicting the claim that both steps are always attempted. -/
theorem C6_counterexample :
    (innerStop true (.error (.kirk "sched boom")) "host" true (.ok ())).2.1 =
        [StopStep.schedulerStop]
  ∧ StopStep.sutStop ∉
      (innerStop true (.error (.kirk "sched boom")) "host" true (.ok ())).2.1 := by
  refine ⟨rfl, by decide⟩

/-- Claim C6 (amended): _inner_stop stops the Scheduler when present and then
the SUT, but a failure of the Scheduler stop step propagates at once and the
SUT stop step is attempted only when the Scheduler step succeeded or no
Scheduler is present. -/
theorem C6_sched_failure_skips_sut_stop (sp : Bool) (sr : Except Exc Unit)
    (n : String) (running : Bool) (so : Except Exc Unit) :
    (sp = true → ∀ e, sr = Except.error e →
        innerStop sp sr n running so =
          ([], [StopStep.schedulerStop], Except.error e))
  ∧ ((sp = false ∨ sr = Except.ok ()) →
        StopStep.sutStop ∈ (innerStop sp sr n running so).2.1) := by
  constructor
  · intro hsp e he
    subst hsp
    subst he
    rfl
  · intro h
    rcases h with h | h
    · subst h
      simp [innerStop, stopSUT]
    · subst h
      cases sp <;> simp [innerStop, stopSUT]

/-- Witness for C6: concrete scheduler-stop failure, with the error
propagated and only the scheduler step attempted. -/
theorem C6_sched_failure_skips_sut_stop_witness :
    innerStop true (.error (.kirk "x")) "host" true (.ok ()) =
      ([], [StopStep.schedulerStop], .error (.kirk "x")) :=
  (C6_sched_failure_skips_sut_stop true (.error (.kirk "x")) "host" true
      (.ok ())).1 rfl (.kirk "x") rfl

/-- Claim C8: stop always fires session_stopped and leaves the stopping flag
false, whatever the outcome of the inner stop, whose exception, if any, still
propagates as the result of stop. -/
theorem C8_stop_fires_and_clears_flag (sp : Bool) (sr : Except Exc Unit)
    (n : String) (running : Bool) (so : Except Exc Unit) :
    Event.session_stopped ∈ (sessionStop sp sr n running so).1
  ∧ (sessionStop sp sr n running so).2.1 = false
  ∧ (sessionStop sp sr n running so).2.2 =
      (innerStop sp sr n running so).2.2 := by
  refine ⟨?_, rfl, rfl⟩
  simp [sessionStop]

/-- Claim C9: construction with a missing (falsy) working directory,
Framework or SUT fails with a ValueError; no session state is produced. -/
theorem C9_init_requires_config (cfg : SessionConfig)
    (h : cfg.tmpdir = none ∨ cfg.framework = none ∨ cfg.sut = none) :
    ∃ m, sessionInit cfg = .error (.valueError m) := by
  rcases h with h | h | h
  · exact ⟨"tmpdir is empty", by simp [sessionInit, h]⟩
  · rcases ht : cfg.tmpdir with _ | td
    · exact ⟨"tmpdir is empty", by simp [sessionInit, ht]⟩
    · exact ⟨"framework is empty", by simp [sessionInit, ht, h]⟩
  · rcases ht : cfg.tmpdir with _ | td
    · exact ⟨"tmpdir is empty", by simp [sessionInit, ht]⟩
    · rcases hf : cfg.framework with _ | fw
      · exact ⟨"framework is empty", by simp [sessionInit, ht, hf]⟩
      · exact ⟨"sut is empty", by simp [sessionInit, ht, hf, h]⟩

/-- Witness for C9: constructing without a working directory fails. -/
theorem C9_init_requires_config_witness :
    ∃ m, sessionInit
        ⟨none, some "ltp", some ⟨"host", true⟩, 3600, 3600, 1, false, none⟩ =
      .error (.valueError m) :=
  C9_init_requires_config
    ⟨none, some "ltp", some ⟨"host", true⟩, 3600, 3600, 1, false, none⟩
    (Or.inl rfl)

/-- Claim C10: an exception from the command that is not a KirkException (and
not the separately handled TimeoutError, which is CmdOutcome.timeout) matches
no handler of _exec_command and propagates for both values of the stopping
flag. -/
theorem C10_non_domain_error_propagates (stop : Bool) (command : String)
    (e : Exc) (h : ∀ m, e ≠ Exc.kirk m) :
    (execCommand stop command (CmdOutcome.err e)).2 = Except.error e := by
  cases e with
  | kirk m => exact absurd rfl (h m)
  | valueError m => rfl
  | cancelled => rfl
  | other m => rfl

/-- Witness for C10: an OSError-like exception propagates while the stopping
flag is set. -/
theorem C10_non_domain_error_propagates_witness :
    (execCommand true "reboot" (CmdOutcome.err (Exc.other "connection reset"))).2 =
      Except.error (Exc.other "connection reset") :=
  C10_non_domain_error_propagates true "reboot" (Exc.other "connection reset")
    (fun _ h => Exc.noConfusion h)

/-- Claim C2 counterexample: a fully successful run with an empty results
aggregate fires zero lifecycle-completion events, and a run cancelled at SUT
startup whose non-empty results export successfully fires two
(session_stopped and session_completed); so a run does not always fire
exactly one. -/
theorem C2_counterexample :
    completionCount
        (sessionRun false "/tmp/k" "host" none [] none envOkEmpty).events = 0
  ∧ completionCount
        (sessionRun false "/tmp/k" "host" none [] none envCancelledResults).events
      = 2 := by
  refine ⟨rfl, rfl⟩

/-- Claim C2 (amended): a run fires at most two lifecycle-completion events,
and their occurrences are exactly characterized: session_stopped fires if and
only if the try body was cancelled; session_completed fires if and only if
the results aggregate is non-empty and the gathered exports succeed;
session_error fires if and only if the body raised a KirkException while the
stopping flag was clear, or the export of a non-empty aggregate failed with a
KirkException.  In particular a successful run with an empty aggregate fires
none, and a cancelled or reported-error run whose non-empty results export
successfully fires two. -/
theorem C2_completion_events_characterized (stop : Bool)
    (tmpdir sutName : String) (command : Option String)
    (suites : List String) (reportPath : Option String) (env : RunEnv) :
    completionCount
        (sessionRun stop tmpdir sutName command suites reportPath env).events ≤ 2
  ∧ (Event.session_stopped ∈
        (sessionRun stop tmpdir sutName command suites reportPath env).events
      ↔ (runBody stop sutName command suites env).2 = .error .cancelled)
  ∧ ((∃ r, Event.session_completed r ∈
        (sessionRun stop tmpdir sutName command suites reportPath env).events)
      ↔ env.results ≠ [] ∧
          gatherRes (optStrTruthy reportPath) env.exportMain env.exportReport
            = .ok ())
  ∧ ((∃ m, Event.session_error m ∈
        (sessionRun stop tmpdir sutName command suites reportPath env).events)
      ↔ ((∃ m, (runBody stop sutName command suites env).2 = .error (.kirk m))
            ∧ stop = false)
        ∨ (env.results ≠ [] ∧
            ∃ m, gatherRes (optStrTruthy reportPath) env.exportMain
                env.exportReport = .error (.kirk m))) := by
  have hbody := runBody_no_completion stop sutName command suites env
  have hinner := innerStop_no_completion true env.schedStop sutName
    env.sutRunning env.sutStopRes
  refine ⟨?_, ?_, ?_, ?_⟩
  · have h1 := exceptTail_count stop (runBody stop sutName command suites env).2
    have h2 := exportPhase_count tmpdir reportPath env.results
      env.exportMain env.exportReport
    have h3 := completionCount_zero hbody
    have h4 := completionCount_zero hinner
    simp only [sessionRun, runExceptPhase_events, completionCount_cons,
      completionCount_append, h3, h4, isCompletionEvent]
    simp only [Bool.false_eq_true, if_false]
    omega
  · have hA := not_mem_of_no_completion hbody Event.session_stopped rfl
    have hI := not_mem_of_no_completion hinner Event.session_stopped rfl
    have hE := exportPhase_no_stopped tmpdir reportPath env.results
      env.exportMain env.exportReport
    simp only [sessionRun, runExceptPhase_events, List.mem_cons,
      List.mem_append]
    simp [hA, hI, hE, mem_exceptTail_stopped]
  · have hA : ∀ r, Event.session_completed r ∉
        (runBody stop sutName command suites env).1 :=
      fun r => not_mem_of_no_completion hbody (Event.session_completed r) rfl
    have hI : ∀ r, Event.session_completed r ∉
        (innerStop true env.schedStop sutName env.sutRunning env.sutStopRes).1 :=
      fun r => not_mem_of_no_completion hinner (Event.session_completed r) rfl
    have hT : ∀ r, Event.session_completed r ∉
        exceptTail stop (runBody stop sutName command suites env).2 :=
      fun r => mem_exceptTail_completed stop _ r
    simp only [sessionRun, runExceptPhase_events, List.mem_cons,
      List.mem_append]
    simp [hA, hI, hT, exportPhase_mem_completed]
  · have hA : ∀ m, Event.session_error m ∉
        (runBody stop sutName command suites env).1 :=
      fun m => not_mem_of_no_completion hbody (Event.session_error m) rfl
    have hI : ∀ m, Event.session_error m ∉
        (innerStop true env.schedStop sutName env.sutRunning env.sutStopRes).1 :=
      fun m => not_mem_of_no_completion hinner (Event.session_error m) rfl
    simp only [sessionRun, runExceptPhase_events, List.mem_cons,
      List.mem_append]
    simp [hA, hI, mem_exceptTail_error, exportPhase_mem_error, exists_or]

/-- Claim C4: at the end of a run with a non-empty results aggregate, a
save_file call targets results.json under the working directory and, when a
truthy report path was supplied, a second call targets it with the identical
aggregate; when the gathered exports succeed session_completed fires with the
results; when they fail with a KirkException session_error fires and run ends
in an error, for both values of the stopping flag. -/
theorem C4_results_exported (stop : Bool) (tmpdir sutName : String)
    (command : Option String) (suites : List String)
    (reportPath : Option String) (env : RunEnv) (hres : env.results ≠ []) :
    (joinPath tmpdir "results.json", env.results) ∈
        (sessionRun stop tmpdir sutName command suites reportPath env).exports
  ∧ (∀ p, reportPath = some p → p.isEmpty = false →
      (p, env.results) ∈
        (sessionRun stop tmpdir sutName command suites reportPath env).exports)
  ∧ (gatherRes (optStrTruthy reportPath) env.exportMain env.exportReport
        = .ok () →
      Event.session_completed env.results ∈
        (sessionRun stop tmpdir sutName command suites reportPath env).events)
  ∧ (∀ m, gatherRes (optStrTruthy reportPath) env.exportMain env.exportReport
        = .error (.kirk m) →
      Event.session_error m ∈
        (sessionRun stop tmpdir sutName command suites reportPath env).events
      ∧ ∃ e, (sessionRun stop tmpdir sutName command suites reportPath env).result
          = .error e) := by
  have hres' : env.results.isEmpty = false := by
    rcases h : env.results with _ | ⟨a, t⟩
    · exact absurd h hres
    · simp [h]
  have hcalls := exportPhase_calls tmpdir reportPath env.results
    env.exportMain env.exportReport hres'
  refine ⟨?_, ?_, ?_, ?_⟩
  · simp only [sessionRun, hcalls]
    exact List.mem_cons_self _ _
  · intro p hp hpe
    simp only [sessionRun, hcalls]
    simp [exportCalls, hp, hpe]
  · intro hg
    simp [sessionRun, exportPhase, hres', hg]
  · intro m hg
    constructor
    · simp [sessionRun, exportPhase, hres', hg]
    · rcases hi : (innerStop true env.schedStop sutName env.sutRunning
          env.sutStopRes).2.2 with e2 | u
      · exact ⟨e2, by simp [sessionRun, exportPhase, hres', hg, hi,
          finallyCombine]⟩
      · exact ⟨Exc.kirk m, by simp [sessionRun, exportPhase, hres', hg, hi,
          finallyCombine]⟩

/-- Witness for C4: a successful run with results and a report path exports
both copies and fires session_completed. -/
theorem C4_results_exported_witness :
    (joinPath "/tmp/k" "results.json", ["res1"]) ∈
        (sessionRun false "/tmp/k" "host" none [] (some "/rep.json")
          envResultsOk).exports
  ∧ ("/rep.json", ["res1"]) ∈
        (sessionRun false "/tmp/k" "host" none [] (some "/rep.json")
          envResultsOk).exports
  ∧ Event.session_completed ["res1"] ∈
        (sessionRun false "/tmp/k" "host" none [] (some "/rep.json")
          envResultsOk).events := by
  have h := C4_results_exported false "/tmp/k" "host" none []
    (some "/rep.json") envResultsOk (by decide)
  exact ⟨h.1, h.2.1 "/rep.json" rfl rfl, h.2.2.1 rfl⟩

/-- Claim C7: when the try body of run is cancelled, run fires
session_stopped, and with a clean export phase and inner stop it returns
normally: the cancellation is not re-raised as an error. -/
theorem C7_cancellation_is_normal_stop (stop : Bool) (tmpdir sutName : String)
    (command : Option String) (suites : List String)
    (reportPath : Option String) (env : RunEnv)
    (hbody : (runBody stop sutName command suites env).2 = .error .cancelled)
    (hexp : (exportPhase tmpdir reportPath env.results env.exportMain
        env.exportReport).2.2 = .ok ())
    (hinner : (innerStop true env.schedStop sutName env.sutRunning
        env.sutStopRes).2.2 = .ok ()) :
    Event.session_stopped ∈
        (sessionRun stop tmpdir sutName command suites reportPath env).events
  ∧ (sessionRun stop tmpdir sutName command suites reportPath env).result
      = .ok () := by
  constructor
  · simp [sessionRun, runExceptPhase_events, hbody, exceptTail]
  · simp [sessionRun, runExceptPhase, hbody, hexp, hinner, finallyCombine]

/-- Witness for C7: a run cancelled at SUT startup with empty results and
clean teardown fires session_stopped and returns normally. -/
theorem C7_cancellation_is_normal_stop_witness :
    Event.session_stopped ∈
        (sessionRun false "/tmp/k" "host" none [] none envCancelledEmpty).events
  ∧ (sessionRun false "/tmp/k" "host" none [] none envCancelledEmpty).result
      = .ok () :=
  C7_cancellation_is_normal_stop false "/tmp/k" "host" none [] none
    envCancelledEmpty rfl rfl rfl

end Kirk
